import Mathlib

/-!
Shallow embedding of `lib/ansible/module_utils/common/validation.py`:
the declarative parameter-constraint validator.  Python dictionaries are
modelled as association lists (keys unique, insertion order preserved),
Python values as the inductive `Value`, and `raise TypeError(msg)` as
`Except.error msg`.
-/

namespace Validation

/-- Python runtime values that can appear in a module parameter mapping:
`None`, booleans, integers, strings and lists. -/
inductive Value where
  | none
  | bool (b : Bool)
  | int (n : Int)
  | str (s : String)
  | list (vs : List Value)

mutual

/-- Python `==` on the modelled values: `None` equals only `None`, booleans
compare numerically with integers (`True == 1` holds in Python since `bool`
is an `int` subtype), strings never equal numbers, lists compare
elementwise. -/
def Value.pyEq : Value → Value → Bool
  | Value.none, Value.none => true
  | Value.bool a, Value.bool b => a == b
  | Value.bool a, Value.int n => (if a then (1 : Int) else 0) == n
  | Value.int n, Value.bool b => n == (if b then (1 : Int) else 0)
  | Value.int m, Value.int n => m == n
  | Value.str s, Value.str t => s == t
  | Value.list xs, Value.list ys => Value.pyEqList xs ys
  | _, _ => false

/-- Elementwise Python `==` of two lists of values. -/
def Value.pyEqList : List Value → List Value → Bool
  | [], [] => true
  | x :: xs, y :: ys => Value.pyEq x y && Value.pyEqList xs ys
  | _, _ => false

end

/-- Python `v is None`. -/
def Value.isNone : Value → Bool
  | Value.none => true
  | _ => false

/-- Python truthiness `bool(v)`: `None`, `False`, `0`, `''` and `[]` are
falsy, everything else is truthy. -/
def Value.truthy : Value → Bool
  | Value.none => false
  | Value.bool b => b
  | Value.int n => n != 0
  | Value.str s => !s.isEmpty
  | Value.list vs => !vs.isEmpty

mutual

/-- Python `repr(v)`. -/
def Value.pyRepr : Value → String
  | Value.none => "None"
  | Value.bool b => if b then "True" else "False"
  | Value.int n => toString n
  | Value.str s => "'" ++ s ++ "'"
  | Value.list vs => "[" ++ String.intercalate ", " (Value.pyReprList vs) ++ "]"

/-- The `repr`s of the elements of a list of values. -/
def Value.pyReprList : List Value → List String
  | [] => []
  | v :: vs => Value.pyRepr v :: Value.pyReprList vs

end

/-- Python `str(v)` (what `%s` formatting applies): a string renders as
itself, every other value as its `repr`. -/
def Value.pyStr : Value → String
  | Value.str s => s
  | v => v.pyRepr

/-- A parameter mapping: association list from parameter name to value,
modelling a Python dict. -/
abbrev Params := List (String × Value)

/-- Python dict indexing `p[k]` / `p.get(k)` restricted to present keys:
the value stored under `k`, if any. -/
def Params.get (p : Params) (k : String) : Option Value :=
  List.lookup k p

/-- Python `k in p`: key membership. -/
def Params.hasKey (p : Params) (k : String) : Bool :=
  (Params.get p k).isSome

/-- A term: either a single parameter name (a bare Python string, which
`is_iterable` reports as non-iterable) or a sequence of names (a Python
list or tuple of strings). -/
inductive Term where
  | single (s : String)
  | names (ns : List String)
deriving DecidableEq

/-- The `if not is_iterable(terms): terms = [terms]` normalisation found at
the top of `count_terms`: a bare string becomes a singleton list. -/
def Term.toList : Term → List String
  | Term.single s => [s]
  | Term.names ns => ns

/-- Python `sep.join(term)`: joining a list of names intercalates them;
joining a bare string iterates its characters (Python strings are
iterables of one-character strings). -/
def Term.pyJoin (t : Term) (sep : String) : String :=
  match t with
  | Term.single s => String.intercalate sep (s.data.map (fun c => String.mk [c]))
  | Term.names ns => String.intercalate sep ns

/-- Rendering of one item of a Python list being joined.  Python `join`
demands string items, so a nested name list never renders in the source;
for totality we render it by joining its names. -/
def Term.pyItem : Term → String
  | Term.single s => s
  | Term.names ns => String.intercalate ", " ns

/-- `count_terms(terms, module_parameters)`:
`len(set(terms).intersection(module_parameters))`, the number of distinct
names of the term that are keys of the mapping. -/
def count_terms (terms : Term) (module_parameters : Params) : Nat :=
  ((terms.toList).dedup.filter (fun k => Params.hasKey module_parameters k)).length

/-- The `results` list built by `check_mutually_exclusive`: the terms whose
present-member count exceeds 1, in source order. -/
def mutually_exclusive_results (terms : List Term) (module_parameters : Params) : List Term :=
  terms.filter (fun check => 1 < count_terms check module_parameters)

/-- `check_mutually_exclusive(terms, module_parameters)`: returns the empty
list on success; on any violation raises one `TypeError` whose message
joins every violating term (names joined by `|`, terms joined by `, `). -/
def check_mutually_exclusive (terms : Option (List Term)) (module_parameters : Params) :
    Except String (List Term) :=
  match terms with
  | Option.none => Except.ok []
  | Option.some ts =>
    let results := mutually_exclusive_results ts module_parameters
    if results.isEmpty then
      Except.ok results
    else
      Except.error ("parameters are mutually exclusive: " ++
        String.intercalate ", " (results.map (fun check => Term.pyJoin check "|")))

/-- The `results` list built by `check_required_one_of`: the terms with
present-member count 0, in source order. -/
def required_one_of_results (terms : List Term) (module_parameters : Params) : List Term :=
  terms.filter (fun term => count_terms term module_parameters == 0)

/-- `check_required_one_of(terms, module_parameters)`: returns the empty
list on success; on violation the `for term in results: raise` loop raises
on its first iteration, so the `TypeError` message names only the first
violating term. -/
def check_required_one_of (terms : Option (List Term)) (module_parameters : Params) :
    Except String (List Term) :=
  match terms with
  | Option.none => Except.ok []
  | Option.some ts =>
    match required_one_of_results ts module_parameters with
    | [] => Except.ok []
    | term :: _ =>
      Except.error ("one of the following is required: " ++ Term.pyJoin term ", ")

/-- One group passed to `check_required_together` is a list of fields, each
field itself a term. -/
abbrev Group := List Term

/-- The violation test of `check_required_together`: some field of the
group has positive count (`len(non_zero) > 0`) and `0 in counts`. -/
def together_violation (term : Group) (module_parameters : Params) : Bool :=
  let counts := term.map (fun field => count_terms field module_parameters)
  decide (0 < (counts.filter (fun c => 0 < c)).length) && counts.contains 0

/-- The `results` list built by `check_required_together`. -/
def required_together_results (terms : List Group) (module_parameters : Params) : List Group :=
  terms.filter (fun term => together_violation term module_parameters)

/-- `check_required_together(terms, module_parameters)`: returns the empty
list on success; on violation raises on the first violating group. -/
def check_required_together (terms : Option (List Group)) (module_parameters : Params) :
    Except String (List Group) :=
  match terms with
  | Option.none => Except.ok []
  | Option.some ts =>
    match required_together_results ts module_parameters with
    | [] => Except.ok []
    | term :: _ =>
      Except.error ("parameters are required together: " ++
        String.intercalate ", " (term.map Term.pyItem))

/-- The firing test of `check_required_by`: the negation of
`key not in module_parameters or module_parameters[key] is None`. -/
def presentNonNone (module_parameters : Params) (k : String) : Bool :=
  match Params.get module_parameters k with
  | Option.some v => !v.isNone
  | Option.none => false

/-- The missing-dependents list collected for one fired driver of
`check_required_by`: the dependents that are absent or `None`.  A bare
string dependent list is the singleton of that string (`Term.toList`). -/
def missingDeps (module_parameters : Params) (value : Term) : List String :=
  value.toList.filter (fun required => !presentNonNone module_parameters required)

/-- The `result` dictionary built by `check_required_by`: one entry per
fired driver, in requirements order, holding its missing dependents. -/
def required_by_result (requirements : List (String × Term)) (module_parameters : Params) :
    List (String × List String) :=
  requirements.filterMap (fun kv =>
    if presentNonNone module_parameters kv.1 then
      Option.some (kv.1, missingDeps module_parameters kv.2)
    else
      Option.none)

/-- `check_required_by(requirements, module_parameters)`: raises for the
first fired driver whose missing list is nonempty; otherwise returns the
`result` dictionary (which keeps an empty-list entry for every fired
driver). -/
def check_required_by (requirements : Option (List (String × Term))) (module_parameters : Params) :
    Except String (List (String × List String)) :=
  match requirements with
  | Option.none => Except.ok []
  | Option.some reqs =>
    let result := required_by_result reqs module_parameters
    match result.find? (fun kv => !kv.2.isEmpty) with
    | Option.some kv =>
      Except.error ("missing parameter(s) required by '" ++ kv.1 ++ "': " ++
        String.intercalate ", " kv.2)
    | Option.none => Except.ok result

/-- One argument-spec descriptor; `required` models
`v.get('required', False)`. -/
structure ArgSpec where
  required : Bool := false
deriving DecidableEq

/-- The `missing` list built by `check_required_arguments`: names whose
descriptor is required and that are not keys of the mapping. -/
def required_arguments_missing (argument_spec : List (String × ArgSpec))
    (module_parameters : Params) : List String :=
  argument_spec.filterMap (fun kv =>
    if kv.2.required && !Params.hasKey module_parameters kv.1 then
      Option.some kv.1
    else
      Option.none)

/-- `check_required_arguments(argument_spec, module_parameters)`: returns
the empty list on success; on violation raises a single `TypeError`
listing all missing names joined by `, `. -/
def check_required_arguments (argument_spec : Option (List (String × ArgSpec)))
    (module_parameters : Params) : Except String (List String) :=
  match argument_spec with
  | Option.none => Except.ok []
  | Option.some spec =>
    let missing := required_arguments_missing spec module_parameters
    if missing.isEmpty then
      Except.ok missing
    else
      Except.error ("missing required arguments: " ++ String.intercalate ", " missing)

/-- A `required_if` rule: a 3-element list `[key, val, requirements]` or a
4-element list `[key, val, requirements, is_one_of]`. -/
inductive IfRule where
  | three (key : String) (val : Value) (requirements : List Term)
  | four (key : String) (val : Value) (requirements : List Term) (is_one_of : Bool)

/-- One entry of the `results` list of `check_required_if`. -/
structure IfResult where
  missing : List Term
  requires : String
  parameter : String
  value : Value
  requirements : List Term

/-- The applicability test of `check_required_if`:
`key in module_parameters and module_parameters[key] == val`. -/
def ruleApplies (module_parameters : Params) (key : String) (val : Value) : Bool :=
  match Params.get module_parameters key with
  | Option.some v => v.pyEq val
  | Option.none => false

/-- One iteration of the rule loop of `check_required_if`: evaluates one
rule and yields its violation record, if any.  A 3-element rule keeps
`is_one_of = False` and `max_missing_count = 0`; a 4-element `any` rule
sets `max_missing_count = len(requirements)`.  The rule fires only when
appended, i.e. when `len(missing) != 0 and len(missing) >= max_missing_count`. -/
def required_if_eval (req : IfRule) (module_parameters : Params) : Option IfResult :=
  let parts :=
    match req with
    | IfRule.three key val requirements => (key, val, requirements, false)
    | IfRule.four key val requirements is_one_of => (key, val, requirements, is_one_of)
  match parts with
  | (key, val, requirements, is_one_of) =>
    let max_missing_count := if is_one_of then requirements.length else 0
    let requiresLabel := if is_one_of then "any" else "all"
    let missing :=
      if ruleApplies module_parameters key val then
        requirements.filter (fun check => count_terms check module_parameters == 0)
      else
        []
    if missing.length ≠ 0 ∧ max_missing_count ≤ missing.length then
      Option.some
        { missing := missing, requires := requiresLabel, parameter := key,
          value := val, requirements := requirements }
    else
      Option.none

/-- The `results` list built by `check_required_if`, in rule order. -/
def required_if_results (requirements : List IfRule) (module_parameters : Params) :
    List IfResult :=
  requirements.filterMap (fun req => required_if_eval req module_parameters)

/-- The message rendered for one violating `required_if` rule. -/
def renderIfMsg (m : IfResult) : String :=
  m.parameter ++ " is " ++ m.value.pyStr ++ " but " ++ m.requires ++
    " of the following are missing: " ++ String.intercalate ", " (m.missing.map Term.pyItem)

/-- `check_required_if(requirements, module_parameters)`: returns the empty
list on success; on violation the `for missing in results: raise` loop
raises for the first violating rule. -/
def check_required_if (requirements : Option (List IfRule)) (module_parameters : Params) :
    Except String (List IfResult) :=
  match requirements with
  | Option.none => Except.ok []
  | Option.some rules =>
    match required_if_results rules module_parameters with
    | [] => Except.ok []
    | m :: _ => Except.error (renderIfMsg m)

/-- The `missing_params` list built by `check_missing_parameters`: names
whose looked-up value (`module_parameters.get(param)`, defaulting to
`None`) is falsy. -/
def missing_params_list (module_parameters : Params) (required_parameters : List String) :
    List String :=
  required_parameters.filter
    (fun param => !((Params.get module_parameters param).getD Value.none).truthy)

/-- `check_missing_parameters(module_parameters, required_parameters)`:
returns the empty list on success; on violation raises a single
`TypeError` listing all missing names joined by `, `. -/
def check_missing_parameters (module_parameters : Params)
    (required_parameters : Option (List String)) : Except String (List String) :=
  match required_parameters with
  | Option.none => Except.ok []
  | Option.some reqs =>
    let missing_params := missing_params_list module_parameters reqs
    if missing_params.isEmpty then
      Except.ok missing_params
    else
      Except.error ("missing required arguments: " ++ String.intercalate ", " missing_params)

/-! ## Shared lemmas -/

/-- Membership in the `result` dictionary built by `check_required_by`:
an entry exists exactly for a driver of the requirements that is present
with a non-`None` value, and it holds that driver's missing dependents. -/
theorem mem_required_by_result {reqs : List (String × Term)} {p : Params}
    {key : String} {miss : List String} :
    (key, miss) ∈ required_by_result reqs p ↔
      ∃ deps, (key, deps) ∈ reqs ∧ presentNonNone p key = true ∧
        miss = missingDeps p deps := by
  unfold required_by_result
  rw [List.mem_filterMap]
  constructor
  · rintro ⟨⟨k, deps⟩, hmem, hf⟩
    by_cases h : presentNonNone p k = true
    · rw [if_pos h] at hf
      simp only [Option.some.injEq, Prod.mk.injEq] at hf
      obtain ⟨hk, hm⟩ := hf
      subst hk
      exact ⟨deps, hmem, h, hm.symm⟩
    · rw [if_neg h] at hf
      simp at hf
  · rintro ⟨deps, hmem, h, hm⟩
    refine ⟨(key, deps), hmem, ?_⟩
    rw [if_pos h]
    simp [hm]

/-- `count_terms` computed as the cardinality of the finite set of names
of the term that are keys of the mapping. -/
theorem count_terms_eq_card (t : Term) (p : Params) :
    count_terms t p =
      ((t.toList.filter (fun k => Params.hasKey p k)).toFinset).card := by
  unfold count_terms
  rw [← List.toFinset_card_of_nodup (List.Nodup.filter _ (List.nodup_dedup _)),
    List.toFinset_filter, List.toFinset_filter]
  have hd : t.toList.dedup.toFinset = t.toList.toFinset := by
    apply Finset.ext
    intro a
    simp [List.mem_toFinset, List.mem_dedup]
  rw [hd]

/-! ## Claims -/

/-- C9: every check, called with an absent (`None`) or empty constraint
list / argument specification / required-parameters list, returns success
with an empty result (empty list or empty dictionary) and never signals
an error. -/
theorem empty_constraints_no_op (p : Params) :
    check_mutually_exclusive Option.none p = Except.ok [] ∧
    check_mutually_exclusive (Option.some []) p = Except.ok [] ∧
    check_required_one_of Option.none p = Except.ok [] ∧
    check_required_one_of (Option.some []) p = Except.ok [] ∧
    check_required_together Option.none p = Except.ok [] ∧
    check_required_together (Option.some []) p = Except.ok [] ∧
    check_required_by Option.none p = Except.ok [] ∧
    check_required_by (Option.some []) p = Except.ok [] ∧
    check_required_arguments Option.none p = Except.ok [] ∧
    check_required_arguments (Option.some []) p = Except.ok [] ∧
    check_required_if Option.none p = Except.ok [] ∧
    check_required_if (Option.some []) p = Except.ok [] ∧
    check_missing_parameters p Option.none = Except.ok [] ∧
    check_missing_parameters p (Option.some []) = Except.ok [] :=
  ⟨rfl, rfl, rfl, rfl, rfl, rfl, rfl, rfl, rfl, rfl, rfl, rfl, rfl, rfl⟩

/-- C9 witness: the no-op behaviour at a concrete mapping. -/
theorem empty_constraints_no_op_witness :
    check_mutually_exclusive Option.none [("a", Value.int 1)] = Except.ok [] :=
  (empty_constraints_no_op [("a", Value.int 1)]).1

/-- C7: `count_terms` equals the number of distinct names of the term that
are keys of the mapping, hence is invariant under reordering and
duplication of names within the term; a non-sequence term counts as a
singleton, and the result is 0 for an empty term or an empty mapping. -/
theorem count_terms_spec (p : Params) (s : String) (ns ms : List String) (t : Term) :
    count_terms (Term.single s) p = count_terms (Term.names [s]) p ∧
    ((∀ x, x ∈ ns ↔ x ∈ ms) →
      count_terms (Term.names ns) p = count_terms (Term.names ms) p) ∧
    count_terms (Term.names []) p = 0 ∧
    count_terms t [] = 0 ∧
    count_terms t p =
      ((t.toList.filter (fun k => Params.hasKey p k)).toFinset).card := by
  refine ⟨rfl, ?_, rfl, ?_, count_terms_eq_card t p⟩
  · intro h
    rw [count_terms_eq_card, count_terms_eq_card]
    congr 1
    apply Finset.ext
    intro a
    simp only [List.mem_toFinset, List.mem_filter, Term.toList]
    rw [h a]
  · unfold count_terms
    rw [List.length_eq_zero, List.filter_eq_nil_iff]
    intro a _
    simp [Params.hasKey, Params.get, List.lookup_nil]

/-- C7 witness: reordering and duplicating the names of a term does not
change its count. -/
theorem count_terms_spec_witness :
    count_terms (Term.names ["a", "b", "a"]) [("a", Value.int 1)] =
      count_terms (Term.names ["b", "a"]) [("a", Value.int 1)] :=
  (count_terms_spec [("a", Value.int 1)] "a" ["a", "b", "a"] ["b", "a"]
      (Term.single "a")).2.1
    (fun x => by simp [List.mem_cons]; tauto)

/-- C4: a term violates `check_mutually_exclusive` exactly when more than
one of its distinct members is a key of the mapping (so a bare single-name
term never violates); with no violation the check returns the empty list,
and otherwise it signals one failure carrying every violating term, names
joined by `|` and terms joined by `, `. -/
theorem check_mutually_exclusive_spec (ts : List Term) (p : Params) :
    (∀ t, t ∈ mutually_exclusive_results ts p ↔ t ∈ ts ∧ 1 < count_terms t p) ∧
    (∀ s, Term.single s ∉ mutually_exclusive_results ts p) ∧
    (mutually_exclusive_results ts p = [] →
      check_mutually_exclusive (Option.some ts) p = Except.ok []) ∧
    (mutually_exclusive_results ts p ≠ [] →
      check_mutually_exclusive (Option.some ts) p =
        Except.error ("parameters are mutually exclusive: " ++
          String.intercalate ", "
            ((mutually_exclusive_results ts p).map (fun check => Term.pyJoin check "|")))) := by
  have hmem : ∀ t, t ∈ mutually_exclusive_results ts p ↔ t ∈ ts ∧ 1 < count_terms t p := by
    intro t
    unfold mutually_exclusive_results
    rw [List.mem_filter]
    simp
  refine ⟨hmem, ?_, ?_, ?_⟩
  · intro s hs
    have h := ((hmem _).mp hs).2
    have hd : ([s] : List String).dedup = [s] := (List.nodup_singleton s).dedup
    have hle : count_terms (Term.single s) p ≤ 1 := by
      unfold count_terms
      calc (List.filter (fun k => Params.hasKey p k) (Term.single s).toList.dedup).length
          ≤ (Term.single s).toList.dedup.length :=
            List.length_filter_le _ _
        _ = 1 := by simp [Term.toList, hd]
    omega
  · intro h
    simp [check_mutually_exclusive, h]
  · intro h
    simp [check_mutually_exclusive, List.isEmpty_eq_false.mpr h]

/-- C4 witness: mapping `{a: 1, b: 2}` with one group `[a, b]` yields the
aggregated failure message. -/
theorem check_mutually_exclusive_spec_witness :
    check_mutually_exclusive (Option.some [Term.names ["a", "b"]])
        [("a", Value.int 1), ("b", Value.int 2)] =
      Except.error "parameters are mutually exclusive: a|b" :=
  (check_mutually_exclusive_spec [Term.names ["a", "b"]]
      [("a", Value.int 1), ("b", Value.int 2)]).2.2.2 (by decide)

/-- C2 counterexample: with the two violating terms `[a]` and `[b]` over
the empty mapping, `check_required_one_of` collects both violations in
`results` but raises on the first iteration of its reporting loop, so the
failure it signals names only the first term: it is indistinguishable
from the failure for the single-violation input `[[a]]`. -/
theorem required_one_of_first_violation_only :
    required_one_of_results [Term.names ["a"], Term.names ["b"]] [] =
      [Term.names ["a"], Term.names ["b"]] ∧
    check_required_one_of (Option.some [Term.names ["a"], Term.names ["b"]]) [] =
      Except.error "one of the following is required: a" ∧
    check_required_one_of (Option.some [Term.names ["a"], Term.names ["b"]]) [] =
      check_required_one_of (Option.some [Term.names ["a"]]) [] :=
  ⟨rfl, rfl, rfl⟩

/-- C2 amended: `check_mutually_exclusive` aggregates every violating term
into its one failure message, and `check_required_arguments` and
`check_missing_parameters` likewise list all their missing names in one
message; but `check_required_one_of`, `check_required_by`,
`check_required_together` and `check_required_if` signal a failure
describing only the first violation found, independent of any later
ones. -/
theorem violation_reporting_policy (gs ts : List Term) (t : Term) (p : Params)
    (reqs : List (String × Term)) (key : String) (deps : Term)
    (tg : Group) (tgs : List Group) (rule : IfRule) (rules : List IfRule)
    (m : IfResult) (argspec : List (String × ArgSpec)) (reqnames : List String) :
    (mutually_exclusive_results gs p ≠ [] →
      check_mutually_exclusive (Option.some gs) p =
        Except.error ("parameters are mutually exclusive: " ++
          String.intercalate ", "
            ((mutually_exclusive_results gs p).map (fun check => Term.pyJoin check "|")))) ∧
    (count_terms t p = 0 →
      check_required_one_of (Option.some (t :: ts)) p =
        check_required_one_of (Option.some [t]) p) ∧
    (presentNonNone p key = true → missingDeps p deps ≠ [] →
      check_required_by (Option.some ((key, deps) :: reqs)) p =
        Except.error ("missing parameter(s) required by '" ++ key ++ "': " ++
          String.intercalate ", " (missingDeps p deps))) ∧
    (together_violation tg p = true →
      check_required_together (Option.some (tg :: tgs)) p =
        check_required_together (Option.some [tg]) p) ∧
    (required_if_eval rule p = Option.some m →
      check_required_if (Option.some (rule :: rules)) p =
        check_required_if (Option.some [rule]) p) ∧
    (required_arguments_missing argspec p ≠ [] →
      check_required_arguments (Option.some argspec) p =
        Except.error ("missing required arguments: " ++
          String.intercalate ", " (required_arguments_missing argspec p))) ∧
    (missing_params_list p reqnames ≠ [] →
      check_missing_parameters p (Option.some reqnames) =
        Except.error ("missing required arguments: " ++
          String.intercalate ", " (missing_params_list p reqnames))) := by
  refine ⟨?_, ?_, ?_, ?_, ?_, ?_, ?_⟩
  · intro h
    simp [check_mutually_exclusive, List.isEmpty_eq_false.mpr h]
  · intro h
    simp [check_required_one_of, required_one_of_results, h]
  · intro h1 h2
    have hcons : required_by_result ((key, deps) :: reqs) p =
        (key, missingDeps p deps) :: required_by_result reqs p := by
      unfold required_by_result
      rw [List.filterMap_cons]
      rw [if_pos h1]
    simp only [check_required_by, hcons]
    rw [List.find?_cons_of_pos]
    simp [List.isEmpty_eq_false.mpr h2]
  · intro h
    simp [check_required_together, required_together_results, h]
  · intro h
    simp [check_required_if, required_if_results, List.filterMap_cons, h]
  · intro h
    simp [check_required_arguments, List.isEmpty_eq_false.mpr h]
  · intro h
    simp [check_missing_parameters, List.isEmpty_eq_false.mpr h]

/-- C2 witness: a concrete first-violation-only failure of
`check_required_by`. -/
theorem violation_reporting_policy_witness :
    check_required_by
        (Option.some [("a", Term.single "b"), ("c", Term.single "d")])
        [("a", Value.int 1), ("c", Value.int 2)] =
      Except.error "missing parameter(s) required by 'a': b" :=
  (violation_reporting_policy [] [] (Term.single "x")
      [("a", Value.int 1), ("c", Value.int 2)] [("c", Term.single "d")]
      "a" (Term.single "b") [] [] (IfRule.three "k" Value.none []) []
      (IfResult.mk [] "all" "k" Value.none []) [] []).2.2.1
    (by decide) (by decide)

/-- C1: a `required_if` rule fires only when its trigger key is a key of
the mapping with a value equal (under Python `==`) to the trigger value; a
3-element rule has `all` semantics, identical to a 4-element rule with a
false flag, and when applicable is violated exactly when at least one
requirement term has presence count 0; a 4-element `any` rule is violated
only when every requirement term has presence count 0. -/
theorem check_required_if_rule_spec (p : Params) (key : String) (val : Value)
    (reqs : List Term) :
    (required_if_eval (IfRule.three key val reqs) p =
      required_if_eval (IfRule.four key val reqs false) p) ∧
    (ruleApplies p key val = true ↔
      ∃ v, Params.get p key = Option.some v ∧ v.pyEq val = true) ∧
    (∀ b, ruleApplies p key val = false →
      required_if_eval (IfRule.four key val reqs b) p = Option.none) ∧
    (ruleApplies p key val = true →
      (((required_if_eval (IfRule.four key val reqs false) p).isSome = true ↔
        ∃ t ∈ reqs, count_terms t p = 0) ∧
       ((required_if_eval (IfRule.four key val reqs true) p).isSome = true →
        ∀ t ∈ reqs, count_terms t p = 0))) := by
  refine ⟨rfl, ?_, ?_, ?_⟩
  · unfold ruleApplies
    cases h : Params.get p key with
    | none => simp
    | some v => simp
  · intro b h
    simp [required_if_eval, h]
  · intro h
    constructor
    · constructor
      · intro hs
        unfold required_if_eval at hs
        simp only [h, Bool.false_eq_true, if_false, if_true] at hs
        split at hs
        · rename_i hc
          have hnil : reqs.filter (fun check => count_terms check p == 0) ≠ [] := by
            intro hn
            rw [hn] at hc
            exact hc.1 rfl
          obtain ⟨c, hcmem⟩ :=
            List.exists_mem_of_ne_nil
              (reqs.filter (fun check => count_terms check p == 0)) hnil
          obtain ⟨hcr, hc0⟩ := List.mem_filter.mp hcmem
          exact ⟨c, hcr, by simpa using hc0⟩
        · simp at hs
      · rintro ⟨c, hcmem, hc0⟩
        unfold required_if_eval
        simp only [h, Bool.false_eq_true, if_false, if_true]
        rw [if_pos]
        · rfl
        · refine ⟨?_, by simp⟩
          intro hlen
          have hnil := List.length_eq_zero.mp hlen
          have := List.filter_eq_nil_iff.mp hnil c hcmem
          simp [hc0] at this
    · intro hs t ht
      unfold required_if_eval at hs
      simp only [h, eq_self_iff_true, if_true] at hs
      split at hs
      · rename_i hc
        have h1 := List.length_filter_le (fun check => count_terms check p == 0) reqs
        have h2 := hc.2
        have hlen : (reqs.filter (fun check => count_terms check p == 0)).length =
            reqs.length := by omega
        have heq : reqs.filter (fun check => count_terms check p == 0) = reqs :=
          List.Sublist.eq_of_length (List.filter_sublist reqs) hlen
        have := List.filter_eq_self.mp heq t ht
        simpa using this
      · simp at hs

/-- C1 witness: rule `(state, present, [x, y])` with mapping
`{state: present, x: 1}` fires with `all` semantics (`y` missing), matching
the spec example. -/
theorem check_required_if_rule_spec_witness :
    (required_if_eval
        (IfRule.four "state" (Value.str "present")
          [Term.single "x", Term.single "y"] false)
        [("state", Value.str "present"), ("x", Value.int 1)]).isSome = true :=
  ((check_required_if_rule_spec [("state", Value.str "present"), ("x", Value.int 1)]
        "state" (Value.str "present") [Term.single "x", Term.single "y"]).2.2.2
      (by decide)).1.mpr ⟨Term.single "y", by decide, by decide⟩

/-- C3: `check_required_by` records an entry only for drivers present
with a non-`None` value (absent or `None` drivers fire no rule); a fired
driver's missing list holds exactly its dependents that are absent or
`None`; and when some fired driver has a nonempty missing list the check
signals failure with the message
`missing parameter(s) required by '<driver>': <dependents joined by ', '>`. -/
theorem check_required_by_spec (reqs : List (String × Term)) (p : Params) :
    (∀ key miss, (key, miss) ∈ required_by_result reqs p ↔
      ∃ deps, (key, deps) ∈ reqs ∧ presentNonNone p key = true ∧
        miss = missingDeps p deps) ∧
    (∀ deps d, d ∈ missingDeps p deps ↔
      d ∈ deps.toList ∧ presentNonNone p d = false) ∧
    ((∃ e ∈ required_by_result reqs p, e.2 ≠ []) →
      ∃ key miss, (key, miss) ∈ required_by_result reqs p ∧ miss ≠ [] ∧
        check_required_by (Option.some reqs) p =
          Except.error ("missing parameter(s) required by '" ++ key ++ "': " ++
            String.intercalate ", " miss)) ∧
    ((∀ e ∈ required_by_result reqs p, e.2 = []) →
      check_required_by (Option.some reqs) p =
        Except.ok (required_by_result reqs p)) := by
  refine ⟨fun key miss => mem_required_by_result, ?_, ?_, ?_⟩
  · intro deps d
    unfold missingDeps
    rw [List.mem_filter]
    simp
  · intro hex
    have hfind : ((required_by_result reqs p).find? (fun kv => !kv.2.isEmpty)).isSome
        = true := by
      rw [List.find?_isSome]
      obtain ⟨e, he, hne⟩ := hex
      exact ⟨e, he, by simpa using hne⟩
    obtain ⟨e, hfe⟩ := Option.isSome_iff_exists.mp hfind
    refine ⟨e.1, e.2, List.mem_of_find?_eq_some hfe, ?_, ?_⟩
    · have := List.find?_some hfe
      simpa using this
    · simp only [check_required_by]
      rw [hfe]
  · intro hall
    have hfind : (required_by_result reqs p).find? (fun kv => !kv.2.isEmpty)
        = Option.none := by
      rw [List.find?_eq_none]
      intro x hx
      simp [hall x hx]
    simp only [check_required_by]
    rw [hfind]

/-- C3 witness: requirements `{a: [b, c]}` with mapping `{a: 1, b: 2}`
fire driver `a` with missing dependent `c` and signal its failure. -/
theorem check_required_by_spec_witness :
    ∃ key miss,
      (key, miss) ∈ required_by_result [("a", Term.names ["b", "c"])]
          [("a", Value.int 1), ("b", Value.int 2)] ∧
      miss ≠ [] ∧
      check_required_by (Option.some [("a", Term.names ["b", "c"])])
          [("a", Value.int 1), ("b", Value.int 2)] =
        Except.error ("missing parameter(s) required by '" ++ key ++ "': " ++
          String.intercalate ", " miss) :=
  (check_required_by_spec [("a", Term.names ["b", "c"])]
      [("a", Value.int 1), ("b", Value.int 2)]).2.2.1
    ⟨("a", ["c"]), by decide, by decide⟩

/-- C10: `check_required_by` raises exactly when some driver present with
a non-`None` value has at least one missing dependent; a successful call
returns the full `result` dictionary, which holds an entry for every such
fired driver even when that driver's missing list is empty, so a
successful result need not be the empty dictionary. -/
theorem check_required_by_error_iff (reqs : List (String × Term)) (p : Params) :
    ((∃ msg, check_required_by (Option.some reqs) p = Except.error msg) ↔
      ∃ kv ∈ reqs, presentNonNone p kv.1 = true ∧ missingDeps p kv.2 ≠ []) ∧
    (∀ r, check_required_by (Option.some reqs) p = Except.ok r →
      r = required_by_result reqs p ∧
      ∀ kv ∈ reqs, presentNonNone p kv.1 = true →
        ∃ miss, (kv.1, miss) ∈ r) := by
  cases hf : (required_by_result reqs p).find? (fun kv => !kv.2.isEmpty) with
  | none =>
    have hchk : check_required_by (Option.some reqs) p =
        Except.ok (required_by_result reqs p) := by
      simp only [check_required_by]
      rw [hf]
    constructor
    · constructor
      · rintro ⟨msg, hmsg⟩
        rw [hchk] at hmsg
        cases hmsg
      · rintro ⟨kv, hkv, hpres, hne⟩
        exfalso
        have hmem : (kv.1, missingDeps p kv.2) ∈ required_by_result reqs p :=
          mem_required_by_result.mpr ⟨kv.2, hkv, hpres, rfl⟩
        have hpred := List.find?_eq_none.mp hf _ hmem
        simp [hne] at hpred
    · intro r hr
      rw [hchk] at hr
      cases hr
      refine ⟨rfl, ?_⟩
      intro kv hkv hpres
      exact ⟨missingDeps p kv.2, mem_required_by_result.mpr ⟨kv.2, hkv, hpres, rfl⟩⟩
  | some e =>
    have hchk : check_required_by (Option.some reqs) p =
        Except.error ("missing parameter(s) required by '" ++ e.1 ++ "': " ++
          String.intercalate ", " e.2) := by
      simp only [check_required_by]
      rw [hf]
    constructor
    · constructor
      · intro _
        have hmem := List.mem_of_find?_eq_some hf
        obtain ⟨deps, hd, hp, hm⟩ := mem_required_by_result.mp hmem
        refine ⟨(e.1, deps), hd, hp, ?_⟩
        have hne : e.2 ≠ [] := by
          have := List.find?_some hf
          simpa using this
        rw [← hm]
        exact hne
      · intro _
        exact ⟨_, hchk⟩
    · intro r hr
      rw [hchk] at hr
      cases hr

/-- C10 witness: with requirements `{a: b}` and mapping `{a: 1, b: 2}` the
check succeeds and still returns the entry for driver `a` — a nonempty
dictionary whose one missing list is empty. -/
theorem check_required_by_error_iff_witness :
    (∃ miss, ("a", miss) ∈ required_by_result [("a", Term.single "b")]
        [("a", Value.int 1), ("b", Value.int 2)]) ∧
    check_required_by (Option.some [("a", Term.single "b")])
        [("a", Value.int 1), ("b", Value.int 2)] = Except.ok [("a", [])] :=
  ⟨((check_required_by_error_iff [("a", Term.single "b")]
        [("a", Value.int 1), ("b", Value.int 2)]).2 [("a", [])] rfl).2
      ("a", Term.single "b") (List.mem_cons_self _ _) rfl,
    rfl⟩

/-- C5: a group violates `check_required_together` exactly when at least
one of its terms has positive presence count and at least one has
presence count 0; a group whose counts are all 0, or all positive,
passes — as on the spec examples `[[a, b]]` against `{a: 1}`,
`{a: 1, b: 2}` and `{}`. -/
theorem check_required_together_spec (gs : List Group) (p : Params) :
    (∀ g, g ∈ required_together_results gs p ↔
      g ∈ gs ∧ (∃ f ∈ g, 0 < count_terms f p) ∧ (∃ f ∈ g, count_terms f p = 0)) ∧
    check_required_together (Option.some [[Term.single "a", Term.single "b"]])
        [("a", Value.int 1)] =
      Except.error "parameters are required together: a, b" ∧
    check_required_together (Option.some [[Term.single "a", Term.single "b"]])
        [("a", Value.int 1), ("b", Value.int 2)] = Except.ok [] ∧
    check_required_together (Option.some [[Term.single "a", Term.single "b"]]) [] =
      Except.ok [] := by
  have hviol : ∀ g : Group, together_violation g p = true ↔
      (∃ f ∈ g, 0 < count_terms f p) ∧ (∃ f ∈ g, count_terms f p = 0) := by
    intro g
    unfold together_violation
    rw [Bool.and_eq_true, decide_eq_true_eq, List.length_pos]
    constructor
    · rintro ⟨h1, h2⟩
      constructor
      · obtain ⟨c, hc⟩ := List.exists_mem_of_ne_nil _ h1
        obtain ⟨hcm, hc0⟩ := List.mem_filter.mp hc
        obtain ⟨f, hf, rfl⟩ := List.mem_map.mp hcm
        exact ⟨f, hf, by simpa using hc0⟩
      · have h0 : (0 : Nat) ∈ g.map (fun field => count_terms field p) := by
          simpa using h2
        obtain ⟨f, hf, hf0⟩ := List.mem_map.mp h0
        exact ⟨f, hf, hf0⟩
    · rintro ⟨⟨f1, hf1, h1⟩, f2, hf2, h2⟩
      constructor
      · intro hnil
        have := List.filter_eq_nil_iff.mp hnil (count_terms f1 p)
          (List.mem_map.mpr ⟨f1, hf1, rfl⟩)
        simp [h1] at this
      · simpa using List.mem_map.mpr ⟨f2, hf2, h2⟩
  refine ⟨?_, rfl, rfl, rfl⟩
  intro g
  unfold required_together_results
  rw [List.mem_filter, hviol g]

/-- C5 witness: group `[a, b]` with mapping `{a: 1}` is a violation. -/
theorem check_required_together_spec_witness :
    [Term.single "a", Term.single "b"] ∈
      required_together_results [[Term.single "a", Term.single "b"]]
        [("a", Value.int 1)] :=
  ((check_required_together_spec [[Term.single "a", Term.single "b"]]
        [("a", Value.int 1)]).1 [Term.single "a", Term.single "b"]).mpr
    ⟨List.mem_cons_self _ _, ⟨Term.single "a", by decide, by decide⟩,
      ⟨Term.single "b", by decide, by decide⟩⟩

/-- C6: `check_required_arguments` reports a name missing exactly when its
descriptor's required flag is true and the name is not a key of the
mapping — a key present with any value, `None` included, is never
missing; with no missing names it returns the empty list, otherwise it
signals one failure listing all missing names joined by `, `. -/
theorem check_required_arguments_spec (spec : List (String × ArgSpec)) (p : Params) :
    (∀ k, k ∈ required_arguments_missing spec p ↔
      ∃ d, (k, d) ∈ spec ∧ d.required = true ∧ Params.hasKey p k = false) ∧
    (∀ k, Params.hasKey p k = true → k ∉ required_arguments_missing spec p) ∧
    (required_arguments_missing spec p = [] →
      check_required_arguments (Option.some spec) p = Except.ok []) ∧
    (required_arguments_missing spec p ≠ [] →
      check_required_arguments (Option.some spec) p =
        Except.error ("missing required arguments: " ++
          String.intercalate ", " (required_arguments_missing spec p))) := by
  have hmem : ∀ k, k ∈ required_arguments_missing spec p ↔
      ∃ d, (k, d) ∈ spec ∧ d.required = true ∧ Params.hasKey p k = false := by
    intro k
    unfold required_arguments_missing
    rw [List.mem_filterMap]
    constructor
    · rintro ⟨⟨k', d⟩, hmem', hf⟩
      by_cases h : (d.required && !Params.hasKey p k') = true
      · rw [if_pos h] at hf
        rw [Bool.and_eq_true] at h
        obtain ⟨hd, hk⟩ := h
        cases hf
        exact ⟨d, hmem', hd, by simpa using hk⟩
      · rw [if_neg h] at hf
        simp at hf
    · rintro ⟨d, hmem', hd, hk⟩
      refine ⟨(k, d), hmem', ?_⟩
      have hc : ((k, d).2.required && !Params.hasKey p (k, d).1) = true := by
        simp [hd, hk]
      rw [if_pos hc]
  refine ⟨hmem, ?_, ?_, ?_⟩
  · intro k hk hmemk
    obtain ⟨d, _, _, hfalse⟩ := (hmem k).mp hmemk
    rw [hk] at hfalse
    cases hfalse
  · intro h
    simp [check_required_arguments, h]
  · intro h
    simp [check_required_arguments, List.isEmpty_eq_false.mpr h]

/-- C6 witness: spec `{a: required, b: optional}` with mapping `{b: 1}`
reports `a`; a required key present with value `None` is not missing. -/
theorem check_required_arguments_spec_witness :
    check_required_arguments
        (Option.some [("a", ArgSpec.mk true), ("b", ArgSpec.mk false)])
        [("b", Value.int 1)] =
      Except.error "missing required arguments: a" ∧
    "n" ∉ required_arguments_missing [("n", ArgSpec.mk true)] [("n", Value.none)] :=
  ⟨(check_required_arguments_spec [("a", ArgSpec.mk true), ("b", ArgSpec.mk false)]
        [("b", Value.int 1)]).2.2.2 (by decide),
    (check_required_arguments_spec [("n", ArgSpec.mk true)] [("n", Value.none)]).2.1
      "n" rfl⟩

/-- C8: `check_missing_parameters` reports a name missing exactly when the
mapping's value for it is falsy — key absent (the lookup defaults to
`None`), `None`, `False`, `0`, the empty string or the empty list — so
truthiness of the value, not key presence, decides; with no missing names
it returns the empty list, otherwise it signals one failure listing all
missing names joined by `, `. -/
theorem check_missing_parameters_spec (reqs : List String) (p : Params) :
    (∀ k, k ∈ missing_params_list p reqs ↔
      k ∈ reqs ∧ ((Params.get p k).getD Value.none).truthy = false) ∧
    (Value.truthy Value.none = false ∧ Value.truthy (Value.bool false) = false ∧
      Value.truthy (Value.int 0) = false ∧ Value.truthy (Value.str "") = false ∧
      Value.truthy (Value.list []) = false ∧
      ∀ k, Params.hasKey p k = false →
        (Params.get p k).getD Value.none = Value.none) ∧
    (missing_params_list p reqs = [] →
      check_missing_parameters p (Option.some reqs) = Except.ok []) ∧
    (missing_params_list p reqs ≠ [] →
      check_missing_parameters p (Option.some reqs) =
        Except.error ("missing required arguments: " ++
          String.intercalate ", " (missing_params_list p reqs))) := by
  refine ⟨?_, ⟨rfl, rfl, rfl, rfl, rfl, ?_⟩, ?_, ?_⟩
  · intro k
    unfold missing_params_list
    rw [List.mem_filter]
    simp
  · intro k hk
    unfold Params.hasKey at hk
    cases h : Params.get p k with
    | none => rfl
    | some v =>
      rw [h] at hk
      simp at hk
  · intro h
    simp [check_missing_parameters, h]
  · intro h
    simp [check_missing_parameters, List.isEmpty_eq_false.mpr h]

/-- C8 witness: `{a: 0, b: ""}` misses `a` (zero), `b` (empty string) and
`c` (absent), all listed in the one failure. -/
theorem check_missing_parameters_spec_witness :
    check_missing_parameters [("a", Value.int 0), ("b", Value.str "")]
        (Option.some ["a", "b", "c"]) =
      Except.error "missing required arguments: a, b, c" :=
  (check_missing_parameters_spec ["a", "b", "c"]
      [("a", Value.int 0), ("b", Value.str "")]).2.2.2 (by decide)

end Validation
